import Mathlib

/-!
Shallow embedding of the portfolio backend (`src/main.py`).

The backend is a FastAPI application over a MongoDB document store.  We model:

* each stored document of a collection as a Lean structure whose fields mirror
  the keys the pydantic response model reads (the MongoDB `_id` is modelled as
  a `Nat` standing for the `ObjectId`; `str(ObjectId)` becomes `objectIdToString`);
* a collection as a `List` of such documents, in insertion order (MongoDB
  `find` without a sort returns documents in a deterministic store order;
  `find_one` returns the first match);
* `find({"isActive": True}).sort("order", 1)` as filtering by the `isActive`
  flag followed by a sort on the `order` key (`List.insertionSort`);
* timestamps (`datetime.utcnow()`, `timedelta(days=7)`) as integer seconds;
* a store failure (a driver exception `e`) as an explicit alternative input to
  each handler: handlers take either the collection contents or an exception
  message, mirroring the `try/except` blocks of the source;
* an HTTP error response (`HTTPException(status_code, detail)`) as `HttpError`;
  `logging.error(...)` as a list of emitted log lines returned alongside the
  response, so that statements can talk about what is logged.

Each handler of `main.py` becomes a pure function named after the Python
handler, returning its response (`Except HttpError α` — `Except.error` is the
raised `HTTPException`), the resulting store contents where the handler writes,
and the log lines it emits.
-/

namespace Portfolio

/-! ## Stored documents (MongoDB side) -/

/-- A stored `experiences` document, fields as read by the `Experience` model. -/
structure ExperienceDoc where
  _id : Nat
  position : String
  company : String
  location : String
  period : String
  description : String
  achievements : List String
  order : Int
  isActive : Bool
  createdAt : Option Int
  updatedAt : Option Int
deriving DecidableEq

/-- A stored `accomplishments` document. -/
structure AccomplishmentDoc where
  _id : Nat
  title : String
  description : String
  impact : String
  technologies : List String
  order : Int
  isActive : Bool
  createdAt : Option Int
  updatedAt : Option Int
deriving DecidableEq

/-- A stored `profile` document. -/
structure ProfileDoc where
  _id : Nat
  name : String
  title : String
  description : String
  location : String
  email : String
  phone : String
  isActive : Bool
  updatedAt : Option Int
deriving DecidableEq

/-- A stored `testimonials` document. -/
structure TestimonialDoc where
  _id : Nat
  name : String
  title : String
  company : String
  testimonial : String
  relationship : String
  date : String
  order : Int
  isActive : Bool
  createdAt : Option Int
  updatedAt : Option Int
deriving DecidableEq

/-- A stored `contacts` document.  `status` is stored as its string value,
exactly as `contact_data["status"] = "new"` writes it. -/
structure ContactDoc where
  _id : Nat
  name : String
  email : String
  subject : String
  message : String
  status : String
  createdAt : Option Int
  updatedAt : Option Int
deriving DecidableEq

/-! ## Response models (pydantic side) -/

/-- `str(ObjectId)` of `convert_objectid`: the store identifier as a string. -/
def objectIdToString (oid : Nat) : String :=
  toString oid

/-- Response model `Experience`: the stored fields with `_id` mapped to the
string field `id` by `convert_objectid`. -/
structure Experience where
  id : String
  position : String
  company : String
  location : String
  period : String
  description : String
  achievements : List String
  order : Int
  isActive : Bool
  createdAt : Option Int
  updatedAt : Option Int
deriving DecidableEq

/-- Response model `Accomplishment`. -/
structure Accomplishment where
  id : String
  title : String
  description : String
  impact : String
  technologies : List String
  order : Int
  isActive : Bool
  createdAt : Option Int
  updatedAt : Option Int
deriving DecidableEq

/-- Response model `Profile`. -/
structure Profile where
  id : String
  name : String
  title : String
  description : String
  location : String
  email : String
  phone : String
  isActive : Bool
  updatedAt : Option Int
deriving DecidableEq

/-- Response model `Testimonial`. -/
structure Testimonial where
  id : String
  name : String
  title : String
  company : String
  testimonial : String
  relationship : String
  date : String
  order : Int
  isActive : Bool
  createdAt : Option Int
  updatedAt : Option Int
deriving DecidableEq

/-- Response model `ContactForm` (`status` serializes as its string value). -/
structure ContactForm where
  id : String
  name : String
  email : String
  subject : String
  message : String
  status : String
  createdAt : Option Int
  updatedAt : Option Int
deriving DecidableEq

/-- `convert_objectid` followed by `Experience(**document)`. -/
def toExperience (d : ExperienceDoc) : Experience :=
  { id := objectIdToString d._id, position := d.position, company := d.company,
    location := d.location, period := d.period, description := d.description,
    achievements := d.achievements, order := d.order, isActive := d.isActive,
    createdAt := d.createdAt, updatedAt := d.updatedAt }

/-- `convert_objectid` followed by `Accomplishment(**document)`. -/
def toAccomplishment (d : AccomplishmentDoc) : Accomplishment :=
  { id := objectIdToString d._id, title := d.title, description := d.description,
    impact := d.impact, technologies := d.technologies, order := d.order,
    isActive := d.isActive, createdAt := d.createdAt, updatedAt := d.updatedAt }

/-- `convert_objectid` followed by `Profile(**document)`. -/
def toProfile (d : ProfileDoc) : Profile :=
  { id := objectIdToString d._id, name := d.name, title := d.title,
    description := d.description, location := d.location, email := d.email,
    phone := d.phone, isActive := d.isActive, updatedAt := d.updatedAt }

/-- `convert_objectid` followed by `Testimonial(**document)`. -/
def toTestimonial (d : TestimonialDoc) : Testimonial :=
  { id := objectIdToString d._id, name := d.name, title := d.title,
    company := d.company, testimonial := d.testimonial,
    relationship := d.relationship, date := d.date, order := d.order,
    isActive := d.isActive, createdAt := d.createdAt, updatedAt := d.updatedAt }

/-- `convert_objectid` followed by `ContactForm(**document)`. -/
def toContactForm (d : ContactDoc) : ContactForm :=
  { id := objectIdToString d._id, name := d.name, email := d.email,
    subject := d.subject, message := d.message, status := d.status,
    createdAt := d.createdAt, updatedAt := d.updatedAt }

/-! ## MongoDB sort on the `order` key -/

/-- The comparison used by `.sort("order", 1)`: ascending on the `order` key. -/
def byOrder {α : Type} (key : α → Int) (a b : α) : Prop :=
  key a ≤ key b

instance {α : Type} (key : α → Int) : DecidableRel (byOrder key) :=
  fun a b => Int.decLe (key a) (key b)

instance {α : Type} (key : α → Int) : IsTotal α (byOrder key) :=
  ⟨fun a b => le_total (key a) (key b)⟩

instance {α : Type} (key : α → Int) : IsTrans α (byOrder key) :=
  ⟨fun _ _ _ hab hbc => le_trans hab hbc⟩

/-- `.sort("order", 1)`: sort ascending by the `order` key. -/
def sortByOrder {α : Type} (key : α → Int) (l : List α) : List α :=
  l.insertionSort (byOrder key)

/-! ## HTTP errors -/

/-- `HTTPException(status_code=code, detail=detail)`. -/
structure HttpError where
  code : Nat
  detail : String
deriving DecidableEq

/-! ## Listing handlers

Each handler receives the outcome of the store query: `Except.ok docs` when the
driver returns the collection contents, `Except.error e` when it raises an
exception with message `e`.  The result is the HTTP response together with the
log lines emitted. -/

/-- `GET /api/experiences` (`get_experiences` in `main.py`). -/
def get_experiences (dbRes : Except String (List ExperienceDoc)) :
    Except HttpError (List Experience) × List String :=
  match dbRes with
  | Except.ok docs =>
      (Except.ok ((sortByOrder ExperienceDoc.order
          (docs.filter (fun d => d.isActive))).map toExperience), [])
  | Except.error e =>
      (Except.error { code := 500, detail := "Failed to fetch experiences" },
       ["Error fetching experiences: " ++ e])

/-- `GET /api/accomplishments` (`get_accomplishments` in `main.py`). -/
def get_accomplishments (dbRes : Except String (List AccomplishmentDoc)) :
    Except HttpError (List Accomplishment) × List String :=
  match dbRes with
  | Except.ok docs =>
      (Except.ok ((sortByOrder AccomplishmentDoc.order
          (docs.filter (fun d => d.isActive))).map toAccomplishment), [])
  | Except.error e =>
      (Except.error { code := 500, detail := "Failed to fetch accomplishments" },
       ["Error fetching accomplishments: " ++ e])

/-- `GET /api/testimonials` (`get_testimonials` in `main.py`). -/
def get_testimonials (dbRes : Except String (List TestimonialDoc)) :
    Except HttpError (List Testimonial) × List String :=
  match dbRes with
  | Except.ok docs =>
      (Except.ok ((sortByOrder TestimonialDoc.order
          (docs.filter (fun d => d.isActive))).map toTestimonial), [])
  | Except.error e =>
      (Except.error { code := 500, detail := "Failed to fetch testimonials" },
       ["Error fetching testimonials: " ++ e])

/-- `GET /api/profile` (`get_profile` in `main.py`).
`find_one({"isActive": True})` is the first document of the collection with
`isActive` set; `if not document` raises the 404, which the
`except HTTPException: raise` clause re-raises unchanged; any driver exception
becomes the generic 500. -/
def get_profile (dbRes : Except String (List ProfileDoc)) :
    Except HttpError Profile × List String :=
  match dbRes with
  | Except.error e =>
      (Except.error { code := 500, detail := "Failed to fetch profile" },
       ["Error fetching profile: " ++ e])
  | Except.ok docs =>
      match docs.find? (fun d => d.isActive) with
      | none => (Except.error { code := 404, detail := "Profile not found" }, [])
      | some d => (Except.ok (toProfile d), [])

/-! ## Contact submission -/

/-- The validated body of `POST /api/contact` (`ContactFormCreate`). -/
structure ContactFormCreate where
  name : String
  email : String
  subject : String
  message : String
deriving DecidableEq

/-- Pydantic validation of the request payload: `subject` is optional with
default `""` (`subject: Optional[str] = ""`), so an absent key (`none`)
validates to the empty string. -/
def contactFormCreateOfPayload (name email : String) (subject : Option String)
    (message : String) : ContactFormCreate :=
  { name := name, email := email, subject := subject.getD "", message := message }

/-- The `ObjectId` `insert_one` assigns to the new document: fresh, i.e.
distinct from every identifier already in the collection. -/
def freshId (docs : List ContactDoc) : Nat :=
  (docs.map (fun d => d._id)).foldr max 0 + 1

/-- `POST /api/contact` (`submit_contact_form` in `main.py`).
Takes the validated body, the current time (both `datetime.utcnow()` calls of
the handler, modelled as one instant), the current `contacts` collection, and
the store-failure alternative.  Returns the response, the resulting
`contacts` collection, and the log lines. -/
def submit_contact_form (contact : ContactFormCreate) (now : Int)
    (contacts : List ContactDoc) (dbFail : Option String) :
    Except HttpError ContactForm × List ContactDoc × List String :=
  match dbFail with
  | some e =>
      (Except.error { code := 500, detail := "Failed to submit contact form" },
       contacts, ["Error submitting contact form: " ++ e])
  | none =>
      let newId := freshId contacts
      let stored : ContactDoc :=
        { _id := newId, name := contact.name, email := contact.email,
          subject := contact.subject, message := contact.message,
          status := "new", createdAt := some now, updatedAt := some now }
      let inserted := contacts ++ [stored]
      match inserted.find? (fun d => d._id == newId) with
      | some d => (Except.ok (toContactForm d), inserted, [])
      | none =>
          -- `find_one` returning nothing would make `ContactForm(**None)` raise,
          -- caught by the generic handler (unreachable: the id was just inserted).
          (Except.error { code := 500, detail := "Failed to submit contact form" },
           inserted, ["Error submitting contact form: argument of type NoneType"])

/-! ## Analytics

The analytics collection is schemaless: a document is an association list of
keys to BSON values.  `dict.__setitem__` replaces an existing key or appends. -/

/-- The BSON values relevant to the analytics handlers. -/
inductive BsonValue where
  | str (s : String)
  | time (t : Int)
  | int (i : Int)
  | bool (b : Bool)
deriving DecidableEq

/-- A free-form analytics document: ordered keys to values. -/
abbrev BsonDoc := List (String × BsonValue)

/-- `document[k] = v`: replace the value at `k`, or append `k` if absent. -/
def setKey : BsonDoc → String → BsonValue → BsonDoc
  | [], k, v => [(k, v)]
  | (k₀, v₀) :: rest, k, v =>
      if k₀ = k then (k, v) :: rest else (k₀, v₀) :: setKey rest k v

/-- `document.get(k)`: the value at key `k`, if present. -/
def getKey : BsonDoc → String → Option BsonValue
  | [], _ => none
  | (k₀, v) :: rest, k => if k₀ = k then some v else getKey rest k

/-- The body returned by `POST /api/analytics`. -/
structure TrackResponse where
  status : String
deriving DecidableEq

/-- `POST /api/analytics` (`track_analytics` in `main.py`).  Stamps
`createdAt`, inserts, and reports success or error in the body — a store
failure is swallowed, never re-raised as an `HTTPException`. -/
def track_analytics (analytics_data : BsonDoc) (now : Int)
    (analytics : List BsonDoc) (dbFail : Option String) :
    TrackResponse × List BsonDoc × List String :=
  let stamped := setKey analytics_data "createdAt" (BsonValue.time now)
  match dbFail with
  | some e =>
      ({ status := "error" }, analytics, ["Error tracking analytics: " ++ e])
  | none =>
      ({ status := "success" }, analytics ++ [stamped], [])

/-- Number of seconds in `timedelta(days=7)`. -/
def sevenDays : Int := 7 * 86400

/-- The filter `{"timestamp": {"$gte": cutoff}}`: matches documents whose
`timestamp` key holds a time value at least `cutoff`; documents without the
key (or with a non-time value, by BSON type bracketing) do not match. -/
def isRecent (cutoff : Int) (d : BsonDoc) : Bool :=
  match getKey d "timestamp" with
  | some (BsonValue.time t) => cutoff ≤ t
  | _ => false

/-- The body returned by `GET /api/analytics/summary`.  `timestamp := none`
models the failure body, which has no `timestamp` key. -/
structure SummaryResponse where
  total_visits : Nat
  recent_visits : Nat
  timestamp : Option Int
deriving DecidableEq

/-- `GET /api/analytics/summary` (`get_analytics_summary` in `main.py`).
`count_documents({})` is the collection size; the recent count applies the
7-day `timestamp` filter; a store failure degrades to zero counts with no
`timestamp` key in the body. -/
def get_analytics_summary (analytics : List BsonDoc) (now : Int)
    (dbFail : Option String) : SummaryResponse × List String :=
  match dbFail with
  | some e =>
      ({ total_visits := 0, recent_visits := 0, timestamp := none },
       ["Error fetching analytics: " ++ e])
  | none =>
      ({ total_visits := analytics.length,
         recent_visits := (analytics.filter (isRecent (now - sevenDays))).length,
         timestamp := some now }, [])

/-! ## Sample documents (concrete instances used to evaluate the handlers) -/

/-- A concrete inactive experience document. -/
def expInactive : ExperienceDoc :=
  { _id := 1, position := "Engineer", company := "Acme", location := "Pune",
    period := "2020", description := "d", achievements := ["a"], order := 0,
    isActive := false, createdAt := none, updatedAt := none }

/-- A concrete inactive accomplishment document. -/
def accInactive : AccomplishmentDoc :=
  { _id := 2, title := "t", description := "d", impact := "i",
    technologies := ["x"], order := 0, isActive := false,
    createdAt := none, updatedAt := none }

/-- A concrete inactive testimonial document. -/
def testInactive : TestimonialDoc :=
  { _id := 3, name := "n", title := "t", company := "c", testimonial := "w",
    relationship := "r", date := "2024", order := 0, isActive := false,
    createdAt := none, updatedAt := none }

/-- A concrete inactive profile document. -/
def profileInactive : ProfileDoc :=
  { _id := 4, name := "n", title := "t", description := "d", location := "l",
    email := "e", phone := "p", isActive := false, updatedAt := none }

/-- A concrete active profile document. -/
def profileActive : ProfileDoc :=
  { _id := 5, name := "Dayaldas", title := "t", description := "d",
    location := "l", email := "e", phone := "p", isActive := true,
    updatedAt := some 0 }

/-! ## Helper lemmas -/

/-- `Nat.toDigitsCore` never shortens its accumulator. -/
theorem toDigitsCore_length_le (b : Nat) (fuel : Nat) :
    ∀ (n : Nat) (ds : List Char), ds.length ≤ (Nat.toDigitsCore b fuel n ds).length := by
  induction fuel with
  | zero => intro n ds; simp [Nat.toDigitsCore]
  | succ fuel ih =>
      intro n ds
      simp only [Nat.toDigitsCore]
      by_cases h : n / b = 0
      · simp [h]
      · simp only [h, if_neg, ite_false]
        exact le_trans (by simp) (ih (n / b) (Nat.digitChar (n % b) :: ds))

/-- With positive fuel, `Nat.toDigitsCore` emits at least one digit. -/
theorem toDigitsCore_succ_length_lt (b fuel n : Nat) (ds : List Char) :
    ds.length < (Nat.toDigitsCore b (fuel + 1) n ds).length := by
  simp only [Nat.toDigitsCore]
  by_cases h : n / b = 0
  · simp [h]
  · simp only [h, if_neg, ite_false]
    exact lt_of_lt_of_le (by simp) (toDigitsCore_length_le b fuel (n / b) _)

/-- The decimal rendering of an identifier is never the empty string. -/
theorem objectIdToString_ne_empty (n : Nat) : objectIdToString n ≠ "" := by
  intro h
  have hd : Nat.toDigits 10 n = [] := congrArg String.data h
  have hlen : ([] : List Char).length < (Nat.toDigits 10 n).length := by
    unfold Nat.toDigits
    exact toDigitsCore_succ_length_lt 10 n n []
  rw [hd] at hlen
  simp at hlen

/-- Reading back the key just written. -/
theorem getKey_setKey_same (d : BsonDoc) (k : String) (v : BsonValue) :
    getKey (setKey d k v) k = some v := by
  induction d with
  | nil => simp [setKey, getKey]
  | cons kv rest ih =>
      obtain ⟨k₀, v₀⟩ := kv
      by_cases h : k₀ = k
      · simp [setKey, getKey, h]
      · simp [setKey, getKey, h, ih]

/-- Writing one key leaves every other key unchanged. -/
theorem getKey_setKey_ne (d : BsonDoc) (k k₁ : String) (v : BsonValue)
    (hne : k₁ ≠ k) : getKey (setKey d k v) k₁ = getKey d k₁ := by
  have hkk : ¬k = k₁ := fun e => hne (Eq.symm e)
  induction d with
  | nil => simp [setKey, getKey, hkk]
  | cons kv rest ih =>
      obtain ⟨k₀, v₀⟩ := kv
      by_cases h : k₀ = k
      · subst h
        simp [setKey, getKey, hkk]
      · simp only [setKey, getKey, if_neg h]
        by_cases h₁ : k₀ = k₁
        · simp [h₁]
        · simp [h₁, ih]

/-- Every member of a list of naturals is bounded by its `foldr max 0`. -/
theorem le_foldr_max (x : Nat) (l : List Nat) (h : x ∈ l) : x ≤ l.foldr max 0 := by
  induction l with
  | nil => cases h
  | cons a l ih =>
      rcases List.mem_cons.mp h with rfl | h
      · exact le_max_left _ _
      · exact le_trans (ih h) (le_max_right _ _)

/-- The identifier assigned by `insert_one` is fresh for the collection. -/
theorem freshId_not_mem (contacts : List ContactDoc) :
    ∀ d ∈ contacts, d._id ≠ freshId contacts := by
  intro d hd
  have hle : d._id ≤ (contacts.map (fun d => d._id)).foldr max 0 :=
    le_foldr_max _ _ (List.mem_map_of_mem _ hd)
  unfold freshId
  omega

/-- `find_one` on a filter matched by exactly one document returns it. -/
theorem find?_of_filter_single {α : Type} (p : α → Bool) (l : List α) (d : α)
    (h : l.filter p = [d]) : l.find? p = some d := by
  induction l with
  | nil => simp at h
  | cons a l ih =>
      by_cases hp : p a
      · rw [List.filter_cons_of_pos hp] at h
        rw [List.find?_cons_of_pos l hp]
        exact congrArg some (List.cons_eq_cons.mp h).1
      · rw [List.filter_cons_of_neg hp] at h
        rw [List.find?_cons_of_neg l hp]
        exact ih h

/-- Shared shape of the three listing handlers: filtering on the activity
flag then sorting on the order key yields a sorted, all-active permutation of
the active documents, through the document-to-model map `f`. -/
theorem listing_spec {α β : Type} (key : α → Int) (keyB : β → Int)
    (active : α → Bool) (activeB : β → Bool) (f : α → β)
    (hkey : ∀ a, keyB (f a) = key a) (hact : ∀ a, activeB (f a) = active a)
    (docs : List α) :
    List.Sorted (fun a b => keyB a ≤ keyB b)
        ((sortByOrder key (docs.filter active)).map f) ∧
    (∀ x ∈ (sortByOrder key (docs.filter active)).map f, activeB x = true) ∧
    ((sortByOrder key (docs.filter active)).map f).Perm
        ((docs.filter active).map f) := by
  refine ⟨?_, ?_, ?_⟩
  · have hs := List.sorted_insertionSort (byOrder key) (docs.filter active)
    exact List.Pairwise.map f
      (fun a b hab => by simpa [hkey] using hab) hs
  · intro x hx
    obtain ⟨a, ha, rfl⟩ := List.mem_map.mp hx
    have hmem : a ∈ docs.filter active := by
      simpa [sortByOrder] using ha
    rw [hact]
    exact (List.mem_filter.mp hmem).2
  · exact (List.perm_insertionSort (byOrder key) (docs.filter active)).map f

/-! ## Claims -/

/-- C1: every listing endpoint (GET /experiences, /accomplishments,
/testimonials) returns, with HTTP success, exactly the documents of its
collection with `isActive = true` — as a list sorted non-decreasing by the
`order` field, containing no inactive document. -/
theorem listing_returns_active_sorted (edocs : List ExperienceDoc)
    (adocs : List AccomplishmentDoc) (tdocs : List TestimonialDoc) :
    (∃ l, get_experiences (Except.ok edocs) = (Except.ok l, []) ∧
        List.Sorted (fun a b => a.order ≤ b.order) l ∧
        (∀ x ∈ l, x.isActive = true) ∧
        l.Perm ((edocs.filter (fun d => d.isActive)).map toExperience)) ∧
    (∃ l, get_accomplishments (Except.ok adocs) = (Except.ok l, []) ∧
        List.Sorted (fun a b => a.order ≤ b.order) l ∧
        (∀ x ∈ l, x.isActive = true) ∧
        l.Perm ((adocs.filter (fun d => d.isActive)).map toAccomplishment)) ∧
    (∃ l, get_testimonials (Except.ok tdocs) = (Except.ok l, []) ∧
        List.Sorted (fun a b => a.order ≤ b.order) l ∧
        (∀ x ∈ l, x.isActive = true) ∧
        l.Perm ((tdocs.filter (fun d => d.isActive)).map toTestimonial)) := by
  refine ⟨⟨_, rfl, ?_⟩, ⟨_, rfl, ?_⟩, ⟨_, rfl, ?_⟩⟩
  · exact listing_spec ExperienceDoc.order Experience.order
      (fun d => d.isActive) (fun x => x.isActive) toExperience
      (fun a => rfl) (fun a => rfl) edocs
  · exact listing_spec AccomplishmentDoc.order Accomplishment.order
      (fun d => d.isActive) (fun x => x.isActive) toAccomplishment
      (fun a => rfl) (fun a => rfl) adocs
  · exact listing_spec TestimonialDoc.order Testimonial.order
      (fun d => d.isActive) (fun x => x.isActive) toTestimonial
      (fun a => rfl) (fun a => rfl) tdocs

/-- C2: the profile endpoint fails with the 404 "not found" error when no
document has `isActive = true` — an error distinct from, and never turned
into, the generic 500 response — and returns the single active document,
fields intact, when exactly one exists. -/
theorem profile_not_found_and_single (docs : List ProfileDoc) :
    ((∀ d ∈ docs, d.isActive = false) →
        get_profile (Except.ok docs) =
          (Except.error { code := 404, detail := "Profile not found" }, []) ∧
        ∀ detail log, get_profile (Except.ok docs) ≠
          (Except.error { code := 500, detail := detail }, log)) ∧
    (∀ d, docs.filter (fun x => x.isActive) = [d] →
        get_profile (Except.ok docs) = (Except.ok (toProfile d), []) ∧
        (toProfile d).id = objectIdToString d._id ∧
        (toProfile d).name = d.name ∧ (toProfile d).title = d.title ∧
        (toProfile d).description = d.description ∧
        (toProfile d).location = d.location ∧
        (toProfile d).email = d.email ∧ (toProfile d).phone = d.phone ∧
        (toProfile d).isActive = d.isActive ∧
        (toProfile d).updatedAt = d.updatedAt) := by
  constructor
  · intro hno
    have hfind : docs.find? (fun d => d.isActive) = none :=
      List.find?_eq_none.mpr (fun x hx => by simp [hno x hx])
    constructor
    · simp [get_profile, hfind]
    · intro detail log
      simp [get_profile, hfind, HttpError.mk.injEq]
  · intro d hd
    have hfind : docs.find? (fun x => x.isActive) = some d :=
      find?_of_filter_single (fun x => x.isActive) docs d hd
    exact ⟨by simp [get_profile, hfind], rfl, rfl, rfl, rfl, rfl, rfl, rfl,
      rfl, rfl⟩

/-- Witness for C2: one inactive document yields the 404; one active document
is returned as stored. -/
theorem profile_not_found_and_single_witness :
    get_profile (Except.ok [profileInactive]) =
      (Except.error { code := 404, detail := "Profile not found" }, []) ∧
    get_profile (Except.ok [profileActive]) =
      (Except.ok (toProfile profileActive), []) :=
  ⟨((profile_not_found_and_single [profileInactive]).1 (by decide)).1,
   ((profile_not_found_and_single [profileActive]).2 profileActive
      (by decide)).1⟩

/-- C3: a contact submission with name, email and message but no subject
returns a form with `subject = ""`, `status = "new"`, a non-empty string id
and `createdAt = updatedAt`; exactly one new document is appended to the
contacts collection and is retrievable there by the assigned identifier. -/
theorem contact_submission_spec (name email message : String) (now : Int)
    (contacts : List ContactDoc) :
    ∃ (cf : ContactForm) (stored : ContactDoc),
      submit_contact_form (contactFormCreateOfPayload name email none message)
          now contacts none = (Except.ok cf, contacts ++ [stored], []) ∧
      cf.subject = "" ∧ cf.status = "new" ∧ cf.id ≠ "" ∧
      cf.createdAt = some now ∧ cf.updatedAt = some now ∧
      cf.createdAt = cf.updatedAt ∧
      cf.name = name ∧ cf.email = email ∧ cf.message = message ∧
      (contacts ++ [stored]).find? (fun d => d._id == stored._id) =
        some stored ∧
      cf.id = objectIdToString stored._id := by
  refine ⟨toContactForm
      { _id := freshId contacts, name := name, email := email, subject := "",
        message := message, status := "new", createdAt := some now,
        updatedAt := some now },
    { _id := freshId contacts, name := name, email := email, subject := "",
      message := message, status := "new", createdAt := some now,
      updatedAt := some now }, ?_, rfl, rfl, objectIdToString_ne_empty _,
    rfl, rfl, rfl, rfl, rfl, rfl, ?_, rfl⟩
  · have hfind : (contacts ++
        [({ _id := freshId contacts, name := name, email := email,
            subject := "", message := message, status := "new",
            createdAt := some now, updatedAt := some now } : ContactDoc)]).find?
          (fun d => d._id == freshId contacts) =
        some { _id := freshId contacts, name := name, email := email,
               subject := "", message := message, status := "new",
               createdAt := some now, updatedAt := some now } := by
      rw [List.find?_append]
      have h₁ : contacts.find? (fun d => d._id == freshId contacts) = none :=
        List.find?_eq_none.mpr
          (fun x hx => by simp [freshId_not_mem contacts x hx])
      rw [h₁]
      simp [List.find?]
    simp only [submit_contact_form, contactFormCreateOfPayload, Option.getD]
    rw [hfind]
  · rw [List.find?_append]
    have h₁ : contacts.find? (fun d => d._id == freshId contacts) = none :=
      List.find?_eq_none.mpr
        (fun x hx => by simp [freshId_not_mem contacts x hx])
    rw [h₁]
    simp [List.find?]

/-- C4: tracking a well-formed analytics object returns `{status: "success"}`
and appends exactly one document stamped with `createdAt`; a store failure
returns `{status: "error"}` as an ordinary body — the handler's result is
always a plain response, never an HTTP error or an exception. -/
theorem analytics_track_spec (analytics_data : BsonDoc) (now : Int)
    (analytics : List BsonDoc) :
    (∃ stamped,
        track_analytics analytics_data now analytics none =
          ({ status := "success" }, analytics ++ [stamped], []) ∧
        getKey stamped "createdAt" = some (BsonValue.time now) ∧
        (analytics ++ [stamped]).length = analytics.length + 1) ∧
    (∀ e, track_analytics analytics_data now analytics (some e) =
        ({ status := "error" }, analytics, ["Error tracking analytics: " ++ e])) := by
  refine ⟨⟨setKey analytics_data "createdAt" (BsonValue.time now), rfl,
    getKey_setKey_same _ _ _, by simp⟩, fun e => rfl⟩

/-- C5: the summary over an empty analytics collection reports zero counts;
a document whose `timestamp` is the current time raises both `recent_visits`
and `total_visits` by one, while a document whose `timestamp` is 10 days old
raises `total_visits` only. -/
theorem analytics_summary_counts (now : Int) (analytics : List BsonDoc)
    (d : BsonDoc) :
    get_analytics_summary [] now none =
      ({ total_visits := 0, recent_visits := 0, timestamp := some now }, []) ∧
    (getKey d "timestamp" = some (BsonValue.time now) →
      (get_analytics_summary (analytics ++ [d]) now none).1.total_visits =
        (get_analytics_summary analytics now none).1.total_visits + 1 ∧
      (get_analytics_summary (analytics ++ [d]) now none).1.recent_visits =
        (get_analytics_summary analytics now none).1.recent_visits + 1) ∧
    (getKey d "timestamp" = some (BsonValue.time (now - 10 * 86400)) →
      (get_analytics_summary (analytics ++ [d]) now none).1.total_visits =
        (get_analytics_summary analytics now none).1.total_visits + 1 ∧
      (get_analytics_summary (analytics ++ [d]) now none).1.recent_visits =
        (get_analytics_summary analytics now none).1.recent_visits) := by
  refine ⟨rfl, fun h => ?_, fun h => ?_⟩
  · have hrec : isRecent (now - sevenDays) d = true := by
      simp only [isRecent, h, sevenDays, decide_eq_true_eq]
      omega
    constructor
    · simp [get_analytics_summary]
    · simp [get_analytics_summary, List.filter_append, List.filter_cons, hrec]
  · have hrec : isRecent (now - sevenDays) d = false := by
      simp only [isRecent, h, sevenDays, decide_eq_false_iff_not]
      omega
    constructor
    · simp [get_analytics_summary]
    · simp [get_analytics_summary, List.filter_append, List.filter_cons, hrec]

/-- Witness for C5: over the empty collection, a document stamped with the
current time (0) counts in both totals; one stamped 10 days earlier counts
in `total_visits` only. -/
theorem analytics_summary_counts_witness :
    ((get_analytics_summary ([] ++ [[("timestamp", BsonValue.time 0)]]) 0
        none).1.total_visits =
      (get_analytics_summary [] 0 none).1.total_visits + 1 ∧
     (get_analytics_summary ([] ++ [[("timestamp", BsonValue.time 0)]]) 0
        none).1.recent_visits =
      (get_analytics_summary [] 0 none).1.recent_visits + 1) ∧
    ((get_analytics_summary
        ([] ++ [[("timestamp", BsonValue.time (0 - 10 * 86400))]]) 0
        none).1.total_visits =
      (get_analytics_summary [] 0 none).1.total_visits + 1 ∧
     (get_analytics_summary
        ([] ++ [[("timestamp", BsonValue.time (0 - 10 * 86400))]]) 0
        none).1.recent_visits =
      (get_analytics_summary [] 0 none).1.recent_visits) :=
  ⟨(analytics_summary_counts 0 [] [("timestamp", BsonValue.time 0)]).2.1
      (by decide),
   (analytics_summary_counts 0 []
      [("timestamp", BsonValue.time (0 - 10 * 86400))]).2.2 (by decide)⟩

/-- C6: when a collection holds no document with `isActive = true`, the
corresponding listing endpoint responds with HTTP success and the empty
list, not with an error. -/
theorem listing_empty_of_no_active (edocs : List ExperienceDoc)
    (adocs : List AccomplishmentDoc) (tdocs : List TestimonialDoc) :
    ((∀ d ∈ edocs, d.isActive = false) →
        get_experiences (Except.ok edocs) = (Except.ok [], [])) ∧
    ((∀ d ∈ adocs, d.isActive = false) →
        get_accomplishments (Except.ok adocs) = (Except.ok [], [])) ∧
    ((∀ d ∈ tdocs, d.isActive = false) →
        get_testimonials (Except.ok tdocs) = (Except.ok [], [])) := by
  refine ⟨fun h => ?_, fun h => ?_, fun h => ?_⟩
  · have hf : edocs.filter (fun d => d.isActive) = [] :=
      List.filter_eq_nil_iff.mpr (fun a ha => by simp [h a ha])
    simp [get_experiences, hf, sortByOrder, List.insertionSort]
  · have hf : adocs.filter (fun d => d.isActive) = [] :=
      List.filter_eq_nil_iff.mpr (fun a ha => by simp [h a ha])
    simp [get_accomplishments, hf, sortByOrder, List.insertionSort]
  · have hf : tdocs.filter (fun d => d.isActive) = [] :=
      List.filter_eq_nil_iff.mpr (fun a ha => by simp [h a ha])
    simp [get_testimonials, hf, sortByOrder, List.insertionSort]

/-- Witness for C6: collections containing only an inactive document produce
the empty list with HTTP success. -/
theorem listing_empty_of_no_active_witness :
    get_experiences (Except.ok [expInactive]) = (Except.ok [], []) ∧
    get_accomplishments (Except.ok [accInactive]) = (Except.ok [], []) ∧
    get_testimonials (Except.ok [testInactive]) = (Except.ok [], []) :=
  ⟨(listing_empty_of_no_active [expInactive] [] []).1 (by decide),
   (listing_empty_of_no_active [] [accInactive] []).2.1 (by decide),
   (listing_empty_of_no_active [] [] [testInactive]).2.2 (by decide)⟩

/-- C7: a store failure during a listing or contact operation produces the
generic 500 response whose client-visible detail is a fixed message — the
same constant for every underlying exception `e` — while the underlying
cause is written to the log. -/
theorem store_failure_generic_500 (e : String) (c : ContactFormCreate)
    (now : Int) (contacts : List ContactDoc) :
    get_experiences (Except.error e) =
      (Except.error { code := 500, detail := "Failed to fetch experiences" },
       ["Error fetching experiences: " ++ e]) ∧
    get_accomplishments (Except.error e) =
      (Except.error { code := 500, detail := "Failed to fetch accomplishments" },
       ["Error fetching accomplishments: " ++ e]) ∧
    get_testimonials (Except.error e) =
      (Except.error { code := 500, detail := "Failed to fetch testimonials" },
       ["Error fetching testimonials: " ++ e]) ∧
    get_profile (Except.error e) =
      (Except.error { code := 500, detail := "Failed to fetch profile" },
       ["Error fetching profile: " ++ e]) ∧
    submit_contact_form c now contacts (some e) =
      (Except.error { code := 500, detail := "Failed to submit contact form" },
       contacts, ["Error submitting contact form: " ++ e]) :=
  ⟨rfl, rfl, rfl, rfl, rfl⟩

/-- C8: mapping a stored document of any entity to its response model
preserves every field value, except the store identifier `_id`, which
becomes the string field `id`. -/
theorem roundtrip_preserves_fields :
    (∀ d : ExperienceDoc, (toExperience d).id = objectIdToString d._id ∧
      (toExperience d).position = d.position ∧
      (toExperience d).company = d.company ∧
      (toExperience d).location = d.location ∧
      (toExperience d).period = d.period ∧
      (toExperience d).description = d.description ∧
      (toExperience d).achievements = d.achievements ∧
      (toExperience d).order = d.order ∧
      (toExperience d).isActive = d.isActive ∧
      (toExperience d).createdAt = d.createdAt ∧
      (toExperience d).updatedAt = d.updatedAt) ∧
    (∀ d : AccomplishmentDoc, (toAccomplishment d).id = objectIdToString d._id ∧
      (toAccomplishment d).title = d.title ∧
      (toAccomplishment d).description = d.description ∧
      (toAccomplishment d).impact = d.impact ∧
      (toAccomplishment d).technologies = d.technologies ∧
      (toAccomplishment d).order = d.order ∧
      (toAccomplishment d).isActive = d.isActive ∧
      (toAccomplishment d).createdAt = d.createdAt ∧
      (toAccomplishment d).updatedAt = d.updatedAt) ∧
    (∀ d : ProfileDoc, (toProfile d).id = objectIdToString d._id ∧
      (toProfile d).name = d.name ∧
      (toProfile d).title = d.title ∧
      (toProfile d).description = d.description ∧
      (toProfile d).location = d.location ∧
      (toProfile d).email = d.email ∧
      (toProfile d).phone = d.phone ∧
      (toProfile d).isActive = d.isActive ∧
      (toProfile d).updatedAt = d.updatedAt) ∧
    (∀ d : TestimonialDoc, (toTestimonial d).id = objectIdToString d._id ∧
      (toTestimonial d).name = d.name ∧
      (toTestimonial d).title = d.title ∧
      (toTestimonial d).company = d.company ∧
      (toTestimonial d).testimonial = d.testimonial ∧
      (toTestimonial d).relationship = d.relationship ∧
      (toTestimonial d).date = d.date ∧
      (toTestimonial d).order = d.order ∧
      (toTestimonial d).isActive = d.isActive ∧
      (toTestimonial d).createdAt = d.createdAt ∧
      (toTestimonial d).updatedAt = d.updatedAt) ∧
    (∀ d : ContactDoc, (toContactForm d).id = objectIdToString d._id ∧
      (toContactForm d).name = d.name ∧
      (toContactForm d).email = d.email ∧
      (toContactForm d).subject = d.subject ∧
      (toContactForm d).message = d.message ∧
      (toContactForm d).status = d.status ∧
      (toContactForm d).createdAt = d.createdAt ∧
      (toContactForm d).updatedAt = d.updatedAt) :=
  ⟨fun _ => ⟨rfl, rfl, rfl, rfl, rfl, rfl, rfl, rfl, rfl, rfl, rfl⟩,
   fun _ => ⟨rfl, rfl, rfl, rfl, rfl, rfl, rfl, rfl, rfl⟩,
   fun _ => ⟨rfl, rfl, rfl, rfl, rfl, rfl, rfl, rfl, rfl⟩,
   fun _ => ⟨rfl, rfl, rfl, rfl, rfl, rfl, rfl, rfl, rfl, rfl, rfl⟩,
   fun _ => ⟨rfl, rfl, rfl, rfl, rfl, rfl, rfl, rfl⟩⟩

/-- C9: a tracked payload without a `timestamp` key is inserted carrying
only the server-stamped `createdAt` and no `timestamp` field, so it raises
`total_visits` of the summary but is never counted in `recent_visits`, no
matter what the summary's query time is. -/
theorem track_without_timestamp_not_recent (analytics_data : BsonDoc)
    (now later : Int) (analytics : List BsonDoc)
    (h : getKey analytics_data "timestamp" = none) :
    track_analytics analytics_data now analytics none =
      ({ status := "success" },
       analytics ++ [setKey analytics_data "createdAt" (BsonValue.time now)],
       []) ∧
    getKey (setKey analytics_data "createdAt" (BsonValue.time now))
        "createdAt" = some (BsonValue.time now) ∧
    getKey (setKey analytics_data "createdAt" (BsonValue.time now))
        "timestamp" = none ∧
    (get_analytics_summary
        (analytics ++ [setKey analytics_data "createdAt" (BsonValue.time now)])
        later none).1.total_visits =
      (get_analytics_summary analytics later none).1.total_visits + 1 ∧
    (get_analytics_summary
        (analytics ++ [setKey analytics_data "createdAt" (BsonValue.time now)])
        later none).1.recent_visits =
      (get_analytics_summary analytics later none).1.recent_visits := by
  have hts : getKey (setKey analytics_data "createdAt" (BsonValue.time now))
      "timestamp" = none := by
    rw [getKey_setKey_ne _ _ _ _ (by decide)]
    exact h
  refine ⟨rfl, getKey_setKey_same _ _ _, hts, ?_, ?_⟩
  · simp [get_analytics_summary]
  · have hrec : isRecent (later - sevenDays)
        (setKey analytics_data "createdAt" (BsonValue.time now)) = false := by
      simp only [isRecent, hts]
    simp [get_analytics_summary, List.filter_append, List.filter_cons, hrec]

/-- Witness for C9: the payload `{page: "home"}` tracked at time 5 counts in
`total_visits` but not in `recent_visits` of a summary taken at time 5. -/
theorem track_without_timestamp_witness :
    track_analytics [("page", BsonValue.str "home")] 5 [] none =
      ({ status := "success" },
       [] ++ [setKey [("page", BsonValue.str "home")] "createdAt"
                (BsonValue.time 5)], []) ∧
    getKey (setKey [("page", BsonValue.str "home")] "createdAt"
        (BsonValue.time 5)) "createdAt" = some (BsonValue.time 5) ∧
    getKey (setKey [("page", BsonValue.str "home")] "createdAt"
        (BsonValue.time 5)) "timestamp" = none ∧
    (get_analytics_summary
        ([] ++ [setKey [("page", BsonValue.str "home")] "createdAt"
                  (BsonValue.time 5)]) 5 none).1.total_visits =
      (get_analytics_summary [] 5 none).1.total_visits + 1 ∧
    (get_analytics_summary
        ([] ++ [setKey [("page", BsonValue.str "home")] "createdAt"
                  (BsonValue.time 5)]) 5 none).1.recent_visits =
      (get_analytics_summary [] 5 none).1.recent_visits :=
  track_without_timestamp_not_recent [("page", BsonValue.str "home")] 5 5 []
    (by decide)

/-- C10: a store failure in the summary endpoint yields exactly the body
`{total_visits: 0, recent_visits: 0}` with no `timestamp` key, while every
success response — including one over the empty collection, which reports the
same zero counts — carries the `timestamp` key; the two are distinguishable
only by that key. -/
theorem summary_failure_masks_zeros (e : String) (now : Int)
    (analytics : List BsonDoc) :
    get_analytics_summary analytics now (some e) =
      ({ total_visits := 0, recent_visits := 0, timestamp := none },
       ["Error fetching analytics: " ++ e]) ∧
    (get_analytics_summary analytics now (some e)).1.timestamp = none ∧
    (get_analytics_summary analytics now none).1.timestamp = some now ∧
    (get_analytics_summary [] now none).1.total_visits =
      (get_analytics_summary analytics now (some e)).1.total_visits ∧
    (get_analytics_summary [] now none).1.recent_visits =
      (get_analytics_summary analytics now (some e)).1.recent_visits :=
  ⟨rfl, rfl, rfl, rfl, rfl⟩

end Portfolio
